import Mathlib

/-!
Verification of the ConfigurableFirmata protocol core (ConfigurableFirmata.cpp /
ConfigurableFirmata.h, library v2.10.1 sources).

The development shallowly embeds the protocol engine: the incremental byte parser
`FirmataClass::parse`, the sysex dispatcher `processSysexMessage`, the completed
fixed-length message handling, `systemReset`, the pin table operations
(`setPinMode`, `setPinState`, accessors), the packed-integer codec
(`sendPackedUInt32` / `decodePackedUInt32` and the 14/64-bit variants), and the
LARGE_MEM_DEVICE block-read path of `processInput`.

Modelling conventions:
- C `byte` / `int` values are modelled as `Nat`; wherever the C code can
  truncate (a store of a wider value into a `byte`), an explicit `% 256` is
  inserted.  Bit operations (`&`, `|`, `<<`, `>>`) are modelled with the
  corresponding `Nat` bitwise operations.
- The member arrays `storedInputData` (size MAX_DATA_BYTES) is a `List Nat`;
  `pinConfig` / `pinState` (size TOTAL_PINS, a board constant outside the core)
  are total functions `Nat → Nat`.
- Output side effects (callback invocations, messages written to the transport)
  are collected in an event list; a callback slot being attached or empty is a
  `Bool` flag in `Callbacks`, mirroring the null checks on the C function
  pointers.
- `MAX_DATA_BYTES` is 64, or 252 when LARGE_MEM_DEVICE is defined; the parser
  is therefore parameterised by `maxData`.
-/

namespace Firmata

/-! ### Protocol constants, from ConfigurableFirmata.h -/

def DIGITAL_MESSAGE : Nat := 0x90

def ANALOG_MESSAGE : Nat := 0xE0

def REPORT_ANALOG : Nat := 0xC0

def REPORT_DIGITAL : Nat := 0xD0

def SET_PIN_MODE : Nat := 0xF4

def SET_DIGITAL_PIN_VALUE : Nat := 0xF5

def REPORT_VERSION : Nat := 0xF9

def SYSTEM_RESET : Nat := 0xFF

def START_SYSEX : Nat := 0xF0

def END_SYSEX : Nat := 0xF7

def EXTENDED_ANALOG : Nat := 0x6F

def STRING_DATA : Nat := 0x71

def REPORT_FIRMWARE : Nat := 0x79

def PIN_MODE_IGNORE : Nat := 0x7F

/-- MAX_DATA_BYTES for ordinary targets (no LARGE_MEM_DEVICE). -/
def MAX_DATA_BYTES : Nat := 64

/-- MAX_DATA_BYTES when LARGE_MEM_DEVICE is defined. -/
def MAX_DATA_BYTES_LARGE : Nat := 252

/-! ### Callback registry and observable events -/

/-- Which callback slots hold a registered handler (a non-null function
pointer in the C code).  `parse` never mutates the registry, so it is a
separate parameter rather than part of the mutable state. -/
structure Callbacks where
  digital : Bool
  reportAnalog : Bool
  reportDigital : Bool
  pinMode : Bool
  pinValue : Bool
  sysReset : Bool
  string : Bool
  sysex : Bool
  deriving DecidableEq

/-- Registry with a handler in every slot. -/
def allCb : Callbacks :=
  ⟨true, true, true, true, true, true, true, true⟩

/-- Observable effects of feeding bytes to the engine: callback invocations
and messages written to the transport. -/
inductive Ev where
  /-- currentDigitalCallback(channel, value) -/
  | digital (channel value : Nat)
  /-- currentPinModeCallback(pin, config), fired from setPinMode -/
  | pinModeCb (pin config : Nat)
  /-- currentPinValueCallback(pin, value) -/
  | pinValue (pin value : Nat)
  /-- currentReportAnalogCallback(channel, value) -/
  | reportAnalog (channel value : Nat)
  /-- currentReportDigitalCallback(channel, value) -/
  | reportDigital (channel value : Nat)
  /-- currentSysexCallback(command, argc, argv) -/
  | sysex (command argc : Nat) (argv : List Nat)
  /-- currentStringCallback(decoded characters up to the terminating NUL) -/
  | stringCb (chars : List Nat)
  /-- currentSystemResetCallback() -/
  | systemResetCb
  /-- sendString(F("Discarding input message, out of buffer")) -/
  | diagString
  /-- printVersion(): the 3-byte protocol version report -/
  | printVersion
  /-- printFirmwareVersion(): the firmware name/version sysex report -/
  | printFirmwareVersion
  deriving DecidableEq, Repr

/-! ### Mutable engine state (the private fields of FirmataClass) -/

structure FirmataState where
  waitForData : Nat
  executeMultiByteCommand : Nat
  multiByteChannel : Nat
  storedInputData : List Nat
  parsingSysex : Bool
  sysexBytesRead : Nat
  pinConfig : Nat → Nat
  pinState : Nat → Nat
  resetting : Bool

/-- boolean FirmataClass::isParsingMessage: waitForData > 0 || parsingSysex. -/
def isParsingMessage (s : FirmataState) : Bool :=
  decide (0 < s.waitForData) || s.parsingSysex

/-- byte FirmataClass::getPinMode(byte pin): return pinConfig[pin]. -/
def getPinMode (s : FirmataState) (pin : Nat) : Nat :=
  s.pinConfig pin

/-- int FirmataClass::getPinState(byte pin): return pinState[pin]. -/
def getPinState (s : FirmataState) (pin : Nat) : Nat :=
  s.pinState pin

/-- void FirmataClass::setPinState(byte pin, byte state): pinState[pin] = state. -/
def setPinState (s : FirmataState) (pin state : Nat) : FirmataState :=
  { s with pinState := Function.update s.pinState pin state }

/-- void FirmataClass::setPinMode(byte pin, byte config):
if pinConfig[pin] == PIN_MODE_IGNORE return; pinState[pin] = 0;
pinConfig[pin] = config; invoke currentPinModeCallback if attached. -/
def setPinMode (cb : Callbacks) (s : FirmataState) (pin config : Nat) :
    FirmataState × List Ev :=
  if s.pinConfig pin = PIN_MODE_IGNORE then
    (s, [])
  else
    ({ s with
        pinState := Function.update s.pinState pin 0,
        pinConfig := Function.update s.pinConfig pin config },
     if cb.pinMode then [Ev.pinModeCb pin config] else [])

/-- void FirmataClass::systemReset(void).  Zeroes the parser counters, the
channel, and the whole storedInputData array, then invokes the system-reset
callback if attached.  The pin tables are not touched. -/
def systemReset (maxData : Nat) (cb : Callbacks) (s : FirmataState) :
    FirmataState × List Ev :=
  ({ s with
      waitForData := 0,
      executeMultiByteCommand := 0,
      multiByteChannel := 0,
      storedInputData := List.replicate maxData 0,
      parsingSysex := false,
      sysexBytesRead := 0,
      resetting := false },
   if cb.sysReset then [Ev.systemResetCb] else [])

/-- Decode loop of the STRING_DATA case of processSysexMessage:
`while j < bufferLength: buf[j] = buf[i]; i++; buf[j] += buf[i] << 7; i++; j++`.
The fuel argument is the number of iterations left (bufferLength − j); the
store into the byte array truncates mod 256. -/
def stringLoop : Nat → Nat → Nat → List Nat → List Nat
  | 0, _, _, buf => buf
  | n + 1, i, j, buf =>
    let buf1 := buf.set j (buf.getD i 0)
    let buf2 := buf1.set j ((buf1.getD j 0 + ((buf1.getD (i + 1) 0) <<< 7)) % 256)
    stringLoop n (i + 2) (j + 1) buf2

/-- void FirmataClass::processSysexMessage(void): dispatch on the first
buffered byte.  REPORT_FIRMWARE re-emits the firmware report; STRING_DATA
decodes the two-7-bit-byte characters in place and fires the string callback;
anything else goes verbatim to the generic sysex callback. -/
def processSysexMessage (cb : Callbacks) (s : FirmataState) :
    FirmataState × List Ev :=
  let b0 := s.storedInputData.getD 0 0
  if b0 = REPORT_FIRMWARE then
    (s, [Ev.printFirmwareVersion])
  else if b0 = STRING_DATA then
    if cb.string then
      let bufferLength := (s.sysexBytesRead - 1) / 2
      if bufferLength = 0 then
        (s, [])
      else
        let buf2 := stringLoop bufferLength 1 0 s.storedInputData
        let buf3 :=
          if buf2.getD (bufferLength - 1) 0 ≠ 0 then buf2.set bufferLength 0
          else buf2
        ({ s with storedInputData := buf3 },
         [Ev.stringCb (buf3.takeWhile (fun c => c ≠ 0))])
    else (s, [])
  else if cb.sysex then
    (s, [Ev.sysex b0 (s.sysexBytesRead - 1)
          ((s.storedInputData.drop 1).take (s.sysexBytesRead - 1))])
  else (s, [])

/-- Completion of a fixed-length message: the switch on executeMultiByteCommand
run when waitForData reaches 0, followed by `executeMultiByteCommand = 0`. -/
def executeMulti (cb : Callbacks) (s1 : FirmataState) : FirmataState × List Ev :=
  let r :=
    if s1.executeMultiByteCommand = ANALOG_MESSAGE then
      let b0 := s1.storedInputData.getD 0 0
      let b1 := s1.storedInputData.getD 1 0
      let buf :=
        ((((s1.storedInputData.set 0 EXTENDED_ANALOG).set 1
            s1.multiByteChannel).set 2 b1).set 3 b0).set 4 END_SYSEX
      processSysexMessage cb { s1 with storedInputData := buf, sysexBytesRead := 4 }
    else if s1.executeMultiByteCommand = DIGITAL_MESSAGE then
      (s1,
       if cb.digital then
         [Ev.digital s1.multiByteChannel
           (((s1.storedInputData.getD 0 0) <<< 7) + s1.storedInputData.getD 1 0)]
       else [])
    else if s1.executeMultiByteCommand = SET_PIN_MODE then
      setPinMode cb s1 (s1.storedInputData.getD 1 0) (s1.storedInputData.getD 0 0)
    else if s1.executeMultiByteCommand = SET_DIGITAL_PIN_VALUE then
      (s1,
       if cb.pinValue then
         [Ev.pinValue (s1.storedInputData.getD 1 0) (s1.storedInputData.getD 0 0)]
       else [])
    else if s1.executeMultiByteCommand = REPORT_ANALOG then
      (s1,
       if cb.reportAnalog then
         [Ev.reportAnalog s1.multiByteChannel (s1.storedInputData.getD 0 0)]
       else [])
    else if s1.executeMultiByteCommand = REPORT_DIGITAL then
      (s1,
       if cb.reportDigital then
         [Ev.reportDigital s1.multiByteChannel (s1.storedInputData.getD 0 0)]
       else [])
    else (s1, [])
  ({ r.1 with executeMultiByteCommand := 0 }, r.2)

/-- The command decoded by the final branch of parse: below 0xF0 the high
nibble is the command, otherwise the whole byte. -/
def parseCommand (b : Nat) : Nat :=
  if b < 0xF0 then b &&& 0xF0 else b

/-- The switch on the decoded command in the final branch of parse. -/
def commandSwitch (maxData : Nat) (cb : Callbacks) (command : Nat)
    (s0 : FirmataState) : FirmataState × List Ev :=
  if command = ANALOG_MESSAGE ∨ command = DIGITAL_MESSAGE ∨
      command = SET_PIN_MODE ∨ command = SET_DIGITAL_PIN_VALUE then
    ({ s0 with waitForData := 2, executeMultiByteCommand := command }, [])
  else if command = REPORT_ANALOG ∨ command = REPORT_DIGITAL then
    ({ s0 with waitForData := 1, executeMultiByteCommand := command }, [])
  else if command = START_SYSEX then
    ({ s0 with parsingSysex := true, sysexBytesRead := 0 }, [])
  else if command = SYSTEM_RESET then
    systemReset maxData cb s0
  else if command = REPORT_VERSION then
    (s0, [Ev.printVersion])
  else (s0, [])

/-- void FirmataClass::parse(byte inputData).  Faithful rendering of the
four-way branch: the unconditional SYSTEM_RESET override, the sysex-collecting
branch with the buffer-full discard, the fixed-length data-byte branch with
back-to-front storage, and the new-command branch. -/
def parse (maxData : Nat) (cb : Callbacks) (s : FirmataState) (inputData : Nat) :
    FirmataState × List Ev :=
  if inputData = SYSTEM_RESET then
    systemReset maxData cb
      { s with parsingSysex := false, sysexBytesRead := 0, waitForData := 0 }
  else if s.parsingSysex then
    if inputData = END_SYSEX then
      processSysexMessage cb { s with parsingSysex := false }
    else
      let s1 :=
        { s with
            storedInputData := s.storedInputData.set s.sysexBytesRead inputData,
            sysexBytesRead := s.sysexBytesRead + 1 }
      if s1.sysexBytesRead = maxData then
        ({ s1 with parsingSysex := false, sysexBytesRead := 0, waitForData := 0 },
         [Ev.diagString])
      else (s1, [])
  else if 0 < s.waitForData ∧ inputData < 128 then
    let s1 :=
      { s with
          waitForData := s.waitForData - 1,
          storedInputData := s.storedInputData.set (s.waitForData - 1) inputData }
    if s1.waitForData = 0 ∧ s1.executeMultiByteCommand ≠ 0 then
      executeMulti cb s1
    else (s1, [])
  else if inputData < 0xF0 then
    commandSwitch maxData cb (inputData &&& 0xF0)
      { s with multiByteChannel := inputData &&& 0x0F }
  else
    commandSwitch maxData cb inputData s

/-- Feed a byte sequence one byte at a time (the available/read/parse loop),
accumulating all events in order. -/
def runParse (maxData : Nat) (cb : Callbacks) :
    FirmataState → List Nat → FirmataState × List Ev
  | s, [] => (s, [])
  | s, b :: bs =>
    let r := parse maxData cb s b
    let r2 := runParse maxData cb r.1 bs
    (r2.1, r.2 ++ r2.2)

/-- Write a run of bytes into the buffer at consecutive indices starting at
k, the cumulative effect of the sysex data-byte stores. -/
def writeSeq (buf : List Nat) (k : Nat) : List Nat → List Nat
  | [] => buf
  | d :: ds => writeSeq (buf.set k d) (k + 1) ds

/-- The engine state right after construction: the FirmataClass constructor
runs systemReset on the zero-initialised global instance, leaving every
counter zero, the buffer zeroed and every pin at mode 0 (INPUT) / state 0. -/
def initState (maxData : Nat) : FirmataState :=
  { waitForData := 0,
    executeMultiByteCommand := 0,
    multiByteChannel := 0,
    storedInputData := List.replicate maxData 0,
    parsingSysex := false,
    sysexBytesRead := 0,
    pinConfig := fun _ => 0,
    pinState := fun _ => 0,
    resetting := false }

/-! ### The LARGE_MEM_DEVICE block-read path of processInput -/

/-- The fast-scan loop of processInput (LARGE_MEM_DEVICE build):
`while (parsingSysex && writeCachePos > readCachePos + 4)` load the next
4-byte word; if any byte has its top bit set (`nextWord & 0x80808080`), break;
otherwise copy the 4 bytes verbatim to storedInputData at sysexBytesRead and
advance sysexBytesRead by 4 — with no buffer-capacity check.  Returns the
updated state and the bytes left for the per-byte loop. -/
def bulkScan : FirmataState → List Nat → FirmataState × List Nat
  | s, b0 :: b1 :: b2 :: b3 :: b4 :: rest =>
    if s.parsingSysex ∧ b0 < 128 ∧ b1 < 128 ∧ b2 < 128 ∧ b3 < 128 then
      bulkScan
        { s with
            storedInputData :=
              ((((s.storedInputData.set s.sysexBytesRead b0).set
                  (s.sysexBytesRead + 1) b1).set
                  (s.sysexBytesRead + 2) b2).set
                  (s.sysexBytesRead + 3) b3),
            sysexBytesRead := s.sysexBytesRead + 4 }
        (b4 :: rest)
    else (s, b0 :: b1 :: b2 :: b3 :: b4 :: rest)
  | s, l => (s, l)

/-- void FirmataClass::processInput(void), LARGE_MEM_DEVICE branch, applied to
the block of bytes obtained from readBytes: the bulk fast-scan followed by the
per-byte parse loop over the remaining bytes. -/
def processInputBlock (cb : Callbacks) (s : FirmataState) (block : List Nat) :
    FirmataState × List Ev :=
  let r := bulkScan s block
  runParse MAX_DATA_BYTES_LARGE cb r.1 r.2

/-! ### Packed-integer codec (Encoder/Decoder) -/

/-- void FirmataClass::sendPackedUInt32(uint32_t value): the five bytes
written to the transport, least-significant 7-bit group first, the fifth
byte masked to 4 bits. -/
def sendPackedUInt32 (value : Nat) : List Nat :=
  [value &&& 0x7F,
   (value >>> 7) &&& 0x7F,
   (value >>> 14) &&& 0x7F,
   (value >>> 21) &&& 0x7F,
   (value >>> 28) &&& 0x0F]

/-- void FirmataClass::sendPackedUInt64(uint64_t value): low 32-bit word
then high word, 10 bytes total. -/
def sendPackedUInt64 (value : Nat) : List Nat :=
  sendPackedUInt32 (value &&& 0xFFFFFFFF) ++ sendPackedUInt32 (value >>> 32)

/-- void FirmataClass::sendPackedUInt14(uint16_t value): two 7-bit groups. -/
def sendPackedUInt14 (value : Nat) : List Nat :=
  [value &&& 0x7F, (value >>> 7) &&& 0x7F]

/-- uint32_t FirmataClass::decodePackedUInt32(byte* argv). -/
def decodePackedUInt32 (argv : List Nat) : Nat :=
  ((((argv.getD 0 0) |||
      ((argv.getD 1 0) <<< 7)) |||
      ((argv.getD 2 0) <<< 14)) |||
      ((argv.getD 3 0) <<< 21)) |||
      ((argv.getD 4 0) <<< 28)

/-- uint64_t FirmataClass::decodePackedUInt64(byte* argv): the low word plus
the high word shifted, both decoded with decodePackedUInt32. -/
def decodePackedUInt64 (argv : List Nat) : Nat :=
  decodePackedUInt32 argv + ((decodePackedUInt32 (argv.drop 5)) <<< 32)

/-- uint16_t FirmataClass::decodePackedUInt14(byte* argv); the result is
computed in a uint32 and truncated by the uint16 return cast. -/
def decodePackedUInt14 (argv : List Nat) : Nat :=
  ((argv.getD 0 0) ||| ((argv.getD 1 0) <<< 7)) % 65536

/-! ### Auxiliary definitions used by the claim statements -/

/-- Inductive invariant of the parser used for the buffer-safety claim:
the next sysex store index is in bounds, at most two fixed-length data bytes
are ever outstanding, and the buffer has its declared size. -/
def parseInv (maxData : Nat) (s : FirmataState) : Prop :=
  s.sysexBytesRead < maxData ∧ s.waitForData ≤ 2 ∧
    s.storedInputData.length = maxData

/-- Fold a list of setPinMode requests over the state (pin, config). -/
def applyPinOps (cb : Callbacks) (s : FirmataState) (ops : List (Nat × Nat)) :
    FirmataState :=
  ops.foldl (fun a op => (setPinMode cb a op.1 op.2).1) s

/-- Example state for the pin-table claims: pin 3 configured as PWM (3) with
a written state of 5. -/
def pinExampleState : FirmataState :=
  { initState MAX_DATA_BYTES with
      pinConfig := fun p => if p = 3 then 3 else 0,
      pinState := fun p => if p = 3 then 5 else 0 }

/-- Example state for the IGNORE claim: pin 2 marked PIN_MODE_IGNORE. -/
def ignoreExampleState : FirmataState :=
  { initState MAX_DATA_BYTES with
      pinConfig := fun p => if p = 2 then PIN_MODE_IGNORE else 0 }

/-- Example state awaiting the final data byte of a digital message on
channel 1, with the first (low) data byte 5 already stored at index 1. -/
def digitalExampleState : FirmataState :=
  { initState MAX_DATA_BYTES with
      waitForData := 1,
      executeMultiByteCommand := DIGITAL_MESSAGE,
      multiByteChannel := 1,
      storedInputData := (List.replicate MAX_DATA_BYTES 0).set 1 5 }

/-- State of the LARGE_MEM engine right after the START_SYSEX byte. -/
def largeMemSysexState : FirmataState :=
  (parse MAX_DATA_BYTES_LARGE allCb (initState MAX_DATA_BYTES_LARGE) 0xF0).1

/-- The 256-byte all-zero input block exhibiting the block-path divergence. -/
def largeMemBlock : List Nat := List.replicate 256 0

/-! ## Helper lemmas -/

/-- Or-ing a value below 2 ^ k with a left-shifted value is addition: the two
summands occupy disjoint bit ranges. -/
theorem or_shift_chunk (lo hi k m : Nat) (hm : 2 ^ k = m) (h : lo < m) :
    lo ||| (hi <<< k) = hi * m + lo := by
  subst hm
  rw [Nat.shiftLeft_eq, Nat.mul_comm hi (2 ^ k), Nat.lor_comm]
  exact (Nat.mul_add_lt_is_or h hi).symm

theorem and_mask127 (x : Nat) : x &&& 127 = x % 128 := by
  have h := Nat.and_pow_two_sub_one_eq_mod x 7
  norm_num at h
  exact h

theorem and_mask15 (x : Nat) : x &&& 15 = x % 16 := by
  have h := Nat.and_pow_two_sub_one_eq_mod x 4
  norm_num at h
  exact h

theorem and_mask32 (x : Nat) : x &&& 4294967295 = x % 4294967296 := by
  have h := Nat.and_pow_two_sub_one_eq_mod x 32
  norm_num at h
  exact h

/-- The 32-bit packed encoding round-trips below 2 ^ 32. -/
theorem decode32_send32 (v : Nat) (h : v < 4294967296) :
    decodePackedUInt32 (sendPackedUInt32 v) = v := by
  have e : decodePackedUInt32 (sendPackedUInt32 v) =
      (((v % 128 ||| (v / 128 % 128) <<< 7) ||| (v / 16384 % 128) <<< 14) |||
        (v / 2097152 % 128) <<< 21) ||| (v / 268435456 % 16) <<< 28 := by
    simp [decodePackedUInt32, sendPackedUInt32, and_mask127, and_mask15,
      Nat.shiftRight_eq_div_pow]
  rw [e]
  rw [or_shift_chunk (v % 128) (v / 128 % 128) 7 128 (by norm_num) (by omega)]
  rw [or_shift_chunk (v / 128 % 128 * 128 + v % 128) (v / 16384 % 128) 14 16384
    (by norm_num) (by omega)]
  rw [or_shift_chunk (v / 16384 % 128 * 16384 + (v / 128 % 128 * 128 + v % 128))
    (v / 2097152 % 128) 21 2097152 (by norm_num) (by omega)]
  rw [or_shift_chunk
    (v / 2097152 % 128 * 2097152 +
      (v / 16384 % 128 * 16384 + (v / 128 % 128 * 128 + v % 128)))
    (v / 268435456 % 16) 28 268435456 (by norm_num) (by omega)]
  omega

/-- The 14-bit packed encoding round-trips on values of at most 14 bits. -/
theorem decode14_send14 (v : Nat) (h : v ≤ 16383) :
    decodePackedUInt14 (sendPackedUInt14 v) = v := by
  have e : decodePackedUInt14 (sendPackedUInt14 v) =
      (v % 128 ||| (v / 128 % 128) <<< 7) % 65536 := by
    simp [decodePackedUInt14, sendPackedUInt14, and_mask127,
      Nat.shiftRight_eq_div_pow]
  rw [e, or_shift_chunk (v % 128) (v / 128 % 128) 7 128 (by norm_num) (by omega)]
  omega

/-- The 64-bit packed encoding round-trips below 2 ^ 64. -/
theorem decode64_send64 (v : Nat) (h : v < 18446744073709551616) :
    decodePackedUInt64 (sendPackedUInt64 v) = v := by
  have e1 : decodePackedUInt64 (sendPackedUInt64 v) =
      decodePackedUInt32 (sendPackedUInt32 (v &&& 4294967295)) +
        (decodePackedUInt32 (sendPackedUInt32 (v >>> 32))) <<< 32 := rfl
  have hlo : v &&& 4294967295 < 4294967296 := by
    rw [and_mask32]
    omega
  have hhi : v >>> 32 < 4294967296 := by
    rw [Nat.shiftRight_eq_div_pow]
    norm_num
    omega
  rw [e1, decode32_send32 _ hlo, decode32_send32 _ hhi, and_mask32,
    Nat.shiftRight_eq_div_pow, Nat.shiftLeft_eq]
  norm_num
  omega

/-! ## Claim C5 -/

/-- Claim C5: the packed-integer codec round-trips — decodePackedUInt32 after
sendPackedUInt32 is the identity on all 32-bit values (the fifth byte carrying
only bits 28 to 31), decodePackedUInt14 after sendPackedUInt14 is the identity
on values up to 16383, and decodePackedUInt64 after sendPackedUInt64 is the
identity on all 64-bit values. -/
theorem c5_packed_roundtrip :
    (∀ v : Nat, v < 4294967296 → decodePackedUInt32 (sendPackedUInt32 v) = v) ∧
    (∀ v : Nat, v ≤ 16383 → decodePackedUInt14 (sendPackedUInt14 v) = v) ∧
    (∀ v : Nat, v < 18446744073709551616 →
      decodePackedUInt64 (sendPackedUInt64 v) = v) :=
  ⟨fun v h => decode32_send32 v h,
   fun v h => decode14_send14 v h,
   fun v h => decode64_send64 v h⟩

/-- Witness for claim C5: the round-trip laws instantiated at the largest
value of each range. -/
theorem c5_packed_roundtrip_witness :
    ((4294967295 : Nat) < 4294967296 ∧
      decodePackedUInt32 (sendPackedUInt32 4294967295) = 4294967295) ∧
    ((16383 : Nat) ≤ 16383 ∧
      decodePackedUInt14 (sendPackedUInt14 16383) = 16383) ∧
    ((18446744073709551615 : Nat) < 18446744073709551616 ∧
      decodePackedUInt64 (sendPackedUInt64 18446744073709551615) =
        18446744073709551615) :=
  ⟨⟨by norm_num, c5_packed_roundtrip.1 4294967295 (by norm_num)⟩,
   ⟨by norm_num, c5_packed_roundtrip.2.1 16383 (by norm_num)⟩,
   ⟨by norm_num, c5_packed_roundtrip.2.2 18446744073709551615 (by norm_num)⟩⟩

/-! ## Claim C2 -/

/-- Claim C2 counterexample: the claim states that feeding 0xFF resets every
Pin Table entry state to 0 and reinitialises the table.  On a state whose pin
3 has mode PWM and state 5, feeding 0xFF leaves the state at 5 (and the mode
at PWM): FirmataClass::systemReset never touches pinConfig or pinState. -/
theorem c2_reset_counterexample :
    getPinState (parse MAX_DATA_BYTES allCb pinExampleState 0xFF).1 3 = 5 ∧
    getPinMode (parse MAX_DATA_BYTES allCb pinExampleState 0xFF).1 3 = 3 ∧
    (5 : Nat) ≠ 0 := by
  decide

/-- Claim C2 (amended): feeding 0xFF invokes the full system reset, which
clears the parser state and fires the registered reset callback, but the core
leaves every Pin Table mode and state exactly unchanged — any
reinitialisation of pins happens only inside the reset callback itself. -/
theorem c2_reset_pin_table_unchanged (maxData : Nat) (cb : Callbacks)
    (s : FirmataState) :
    (parse maxData cb s 0xFF).1.pinConfig = s.pinConfig ∧
    (parse maxData cb s 0xFF).1.pinState = s.pinState ∧
    (parse maxData cb s 0xFF).2 =
      (if cb.sysReset then [Ev.systemResetCb] else []) := by
  simp [parse, systemReset, SYSTEM_RESET]

/-! ## Claim C3 -/

/-- Claim C3: from any parser state, feeding the reset byte 0xFF clears the
sysex-collecting flag, the bytes-remaining count, the pending command and the
channel, zeroes the buffer (discarding any partial payload), fires the
system-reset callback exactly when one is registered, and leaves the parser
idle with isParsingMessage false. -/
theorem c3_reset_from_any_state (maxData : Nat) (cb : Callbacks)
    (s : FirmataState) :
    (parse maxData cb s 0xFF).1.parsingSysex = false ∧
    (parse maxData cb s 0xFF).1.waitForData = 0 ∧
    (parse maxData cb s 0xFF).1.executeMultiByteCommand = 0 ∧
    (parse maxData cb s 0xFF).1.sysexBytesRead = 0 ∧
    (parse maxData cb s 0xFF).1.multiByteChannel = 0 ∧
    (parse maxData cb s 0xFF).1.storedInputData = List.replicate maxData 0 ∧
    isParsingMessage (parse maxData cb s 0xFF).1 = false ∧
    (parse maxData cb s 0xFF).2 =
      (if cb.sysReset then [Ev.systemResetCb] else []) := by
  simp [parse, systemReset, isParsingMessage, SYSTEM_RESET]

/-! ## Claim C9 -/

/-- Claim C9 counterexample: the claim states that an unrecognized single
byte received in the Idle state leaves the entire parser state — including
the channel field — unchanged.  Feeding 0x85 (command nibble 0x80,
unrecognized) to the freshly initialised parser overwrites multiByteChannel
with the low nibble 5, because parse extracts the channel before the command
switch decides the byte is unrecognized. -/
theorem c9_counterexample :
    (parse MAX_DATA_BYTES allCb (initState MAX_DATA_BYTES) 0x85).1.multiByteChannel = 5 ∧
    (initState MAX_DATA_BYTES).multiByteChannel = 0 ∧
    (5 : Nat) ≠ 0 ∧
    (parse MAX_DATA_BYTES allCb (initState MAX_DATA_BYTES) 0x85).2 = [] := by
  decide

/-- Claim C9 (amended): an unrecognized byte received while Idle produces no
dispatch, no callback and no diagnostic, and leaves the parser Idle with
buffer, counters and pending command unchanged; however, for an unrecognized
byte below 0xF0 the channel field is overwritten with the low nibble of the
byte (unrecognized bytes at or above 0xF0 change nothing at all). -/
theorem c9_unrecognized_idle_byte (maxData : Nat) (cb : Callbacks)
    (s : FirmataState) (b : Nat)
    (hidle : isParsingMessage s = false)
    (h1 : parseCommand b ≠ ANALOG_MESSAGE)
    (h2 : parseCommand b ≠ DIGITAL_MESSAGE)
    (h3 : parseCommand b ≠ SET_PIN_MODE)
    (h4 : parseCommand b ≠ SET_DIGITAL_PIN_VALUE)
    (h5 : parseCommand b ≠ REPORT_ANALOG)
    (h6 : parseCommand b ≠ REPORT_DIGITAL)
    (h7 : parseCommand b ≠ START_SYSEX)
    (h8 : parseCommand b ≠ SYSTEM_RESET)
    (h9 : parseCommand b ≠ REPORT_VERSION) :
    parse maxData cb s b =
      ({ s with multiByteChannel :=
          if b < 0xF0 then b &&& 0x0F else s.multiByteChannel }, []) := by
  obtain ⟨wfd, exec, ch, buf, psx, sbr, pc, ps, rst⟩ := s
  simp only [isParsingMessage, Bool.or_eq_false_iff, decide_eq_false_iff_not,
    Nat.not_lt, Nat.le_zero] at hidle
  obtain ⟨hw, hp⟩ := hidle
  subst hw
  subst hp
  by_cases hlt : b < 0xF0
  · have hcmd : parseCommand b = b &&& 0xF0 := by simp [parseCommand, hlt]
    rw [hcmd] at h1 h2 h3 h4 h5 h6 h7 h8 h9
    have hb : b ≠ SYSTEM_RESET := by
      intro hc
      subst hc
      simp [SYSTEM_RESET] at hlt
    simp [parse, commandSwitch, hb, hlt, h1, h2, h3, h4, h5, h6, h7, h8, h9]
  · have hcmd : parseCommand b = b := by simp [parseCommand, hlt]
    rw [hcmd] at h1 h2 h3 h4 h5 h6 h7 h8 h9
    simp [parse, commandSwitch, hlt, h1, h2, h3, h4, h5, h6, h7, h8, h9]

/-- Witness for claim C9: the amended statement applied to the fresh parser
and the unrecognized byte 0x85. -/
theorem c9_unrecognized_idle_byte_witness :
    isParsingMessage (initState MAX_DATA_BYTES) = false ∧
    parseCommand 0x85 ≠ ANALOG_MESSAGE ∧
    parse MAX_DATA_BYTES allCb (initState MAX_DATA_BYTES) 0x85 =
      ({ initState MAX_DATA_BYTES with multiByteChannel :=
          if (0x85 : Nat) < 0xF0 then (0x85 : Nat) &&& 0x0F
          else (initState MAX_DATA_BYTES).multiByteChannel }, []) :=
  ⟨by decide, by decide,
   c9_unrecognized_idle_byte MAX_DATA_BYTES allCb (initState MAX_DATA_BYTES)
     0x85 (by decide) (by decide) (by decide) (by decide) (by decide)
     (by decide) (by decide) (by decide) (by decide) (by decide)⟩

/-! ## Claim C8 -/

/-- Claim C8: while awaiting fixed bytes with remaining > 0, a data byte
b < 128 is stored at buffer index remaining − 1 (arguments are written
back-to-front); when the 2-byte wait of a digital write completes, the
digital callback receives (channel, (storedInputData[0] << 7) +
storedInputData[1]), reconstructing the 14-bit value as low7 | high7 << 7. -/
theorem c8_fixed_data_storage (maxData : Nat) (cb : Callbacks)
    (s : FirmataState) (b : Nat)
    (hps : s.parsingSysex = false) (hwfd : 0 < s.waitForData) (hb : b < 128)
    (hlen : 2 ≤ s.storedInputData.length) :
    (s.waitForData ≠ 1 →
      parse maxData cb s b =
        ({ s with
            waitForData := s.waitForData - 1,
            storedInputData := s.storedInputData.set (s.waitForData - 1) b },
         [])) ∧
    (s.waitForData = 1 → s.executeMultiByteCommand = DIGITAL_MESSAGE →
      parse maxData cb s b =
        ({ s with
            waitForData := 0,
            storedInputData := s.storedInputData.set 0 b,
            executeMultiByteCommand := 0 },
         if cb.digital then
           [Ev.digital s.multiByteChannel
             ((b <<< 7) + s.storedInputData.getD 1 0)]
         else [])) := by
  have hb255 : b ≠ SYSTEM_RESET := by
    simp only [SYSTEM_RESET]
    omega
  obtain ⟨wfd, exec, ch, buf, psx, sbr, pc, ps, rst⟩ := s
  dsimp only at hps hwfd hlen
  subst hps
  constructor
  · intro hne
    dsimp only at hne ⊢
    have hsub : ¬(wfd - 1 = 0) := by omega
    simp [parse, hb255, hwfd, hb, hsub]
  · intro h1 hexec
    dsimp only at h1 hexec ⊢
    subst h1
    subst hexec
    have hg0 : (buf.set 0 b)[0]?.getD 0 = b := by
      rw [List.getElem?_set_self (by omega)]
      rfl
    simp [parse, executeMulti, hb255, hb, hg0, DIGITAL_MESSAGE,
      ANALOG_MESSAGE, SET_PIN_MODE, SET_DIGITAL_PIN_VALUE, REPORT_ANALOG,
      REPORT_DIGITAL]

/-- Witness for claim C8: the digital-completion branch applied to a state
awaiting one more byte on channel 1 with low byte 5 stored, fed the high
byte 2: the callback value is (2 << 7) + 5 = 261. -/
theorem c8_fixed_data_storage_witness :
    digitalExampleState.parsingSysex = false ∧
    0 < digitalExampleState.waitForData ∧
    (2 : Nat) < 128 ∧
    2 ≤ digitalExampleState.storedInputData.length ∧
    ((digitalExampleState.waitForData = 1 →
      digitalExampleState.executeMultiByteCommand = DIGITAL_MESSAGE →
      parse MAX_DATA_BYTES allCb digitalExampleState 2 =
        ({ digitalExampleState with
            waitForData := 0,
            storedInputData := digitalExampleState.storedInputData.set 0 2,
            executeMultiByteCommand := 0 },
         if allCb.digital then
           [Ev.digital digitalExampleState.multiByteChannel
             (((2 : Nat) <<< 7) + digitalExampleState.storedInputData.getD 1 0)]
         else []))) :=
  ⟨by decide, by decide, by decide, by decide,
   (c8_fixed_data_storage MAX_DATA_BYTES allCb digitalExampleState 2
     (by decide) (by decide) (by decide) (by decide)).2⟩

/-! ## Claim C7 helper lemmas -/

/-- setPinMode never changes the mode of a pin already marked IGNORE, no
matter which pin it targets. -/
theorem setPinMode_preserves_ignore (cb : Callbacks) (s : FirmataState)
    (p m pin : Nat) (h : s.pinConfig pin = PIN_MODE_IGNORE) :
    (setPinMode cb s p m).1.pinConfig pin = PIN_MODE_IGNORE := by
  unfold setPinMode
  by_cases hg : s.pinConfig p = PIN_MODE_IGNORE
  · simp [hg, h]
  · by_cases hpe : p = pin
    · subst hpe
      exact absurd h hg
    · simp [hg, Function.update_noteq (fun hh => hpe hh.symm), h]

/-- processSysexMessage only touches the input buffer, never the pin tables. -/
theorem processSysex_pinConfig (cb : Callbacks) (s : FirmataState) :
    (processSysexMessage cb s).1.pinConfig = s.pinConfig := by
  unfold processSysexMessage
  dsimp only
  split_ifs <;> rfl

/-- executeMulti preserves an IGNORE mark on any pin. -/
theorem executeMulti_preserves_ignore (cb : Callbacks) (s1 : FirmataState)
    (pin : Nat) (h : s1.pinConfig pin = PIN_MODE_IGNORE) :
    (executeMulti cb s1).1.pinConfig pin = PIN_MODE_IGNORE := by
  unfold executeMulti
  dsimp only
  split_ifs <;>
    first
      | exact h
      | (rw [processSysex_pinConfig]; exact h)
      | (exact setPinMode_preserves_ignore cb s1 _ _ pin h)

/-- commandSwitch only touches parser fields, never the pin tables. -/
theorem commandSwitch_pinConfig (maxData : Nat) (cb : Callbacks)
    (command : Nat) (s0 : FirmataState) :
    (commandSwitch maxData cb command s0).1.pinConfig = s0.pinConfig := by
  unfold commandSwitch systemReset
  split_ifs <;> rfl

/-- parse preserves an IGNORE mark on any pin. -/
theorem parse_preserves_ignore (maxData : Nat) (cb : Callbacks)
    (s : FirmataState) (b pin : Nat) (h : s.pinConfig pin = PIN_MODE_IGNORE) :
    (parse maxData cb s b).1.pinConfig pin = PIN_MODE_IGNORE := by
  unfold parse
  by_cases hR : b = SYSTEM_RESET
  · rw [if_pos hR]
    exact h
  · rw [if_neg hR]
    by_cases hS : s.parsingSysex = true
    · rw [if_pos hS]
      by_cases hE : b = END_SYSEX
      · rw [if_pos hE, processSysex_pinConfig]
        exact h
      · rw [if_neg hE]
        dsimp only
        split_ifs <;> exact h
    · rw [if_neg hS]
      by_cases hW : 0 < s.waitForData ∧ b < 128
      · rw [if_pos hW]
        dsimp only
        split_ifs
        · exact executeMulti_preserves_ignore cb _ pin h
        · exact h
      · rw [if_neg hW]
        by_cases hF : b < 0xF0
        · rw [if_pos hF, commandSwitch_pinConfig]
          exact h
        · rw [if_neg hF, commandSwitch_pinConfig]
          exact h

/-- runParse preserves an IGNORE mark on any pin across any input. -/
theorem runParse_preserves_ignore (maxData : Nat) (cb : Callbacks) :
    ∀ (bytes : List Nat) (s : FirmataState) (pin : Nat),
      s.pinConfig pin = PIN_MODE_IGNORE →
      (runParse maxData cb s bytes).1.pinConfig pin = PIN_MODE_IGNORE := by
  intro bytes
  induction bytes with
  | nil => intro s pin h; exact h
  | cons b bs ih =>
    intro s pin h
    simp only [runParse]
    exact ih _ pin (parse_preserves_ignore maxData cb s b pin h)

/-- applyPinOps preserves an IGNORE mark on any pin. -/
theorem applyPinOps_preserves_ignore (cb : Callbacks) :
    ∀ (ops : List (Nat × Nat)) (s : FirmataState) (pin : Nat),
      s.pinConfig pin = PIN_MODE_IGNORE →
      (applyPinOps cb s ops).pinConfig pin = PIN_MODE_IGNORE := by
  intro ops
  induction ops with
  | nil => intro s pin h; exact h
  | cons op rest ih =>
    intro s pin h
    simp only [applyPinOps, List.foldl_cons]
    exact ih _ pin (setPinMode_preserves_ignore cb s op.1 op.2 pin h)

/-! ## Claim C7 -/

/-- Claim C7: setPinMode is a no-op on a pin whose mode is the IGNORE
sentinel (mode stays IGNORE, state is not zeroed, no callback); on any other
pin it zeroes the state, stores the new mode and fires the pin-mode callback
exactly when registered; and once a pin is IGNORE no sequence of setPinMode
operations, nor any parsed input, ever changes that mode again. -/
theorem c7_ignore_pin_write_once :
    (∀ (cb : Callbacks) (s : FirmataState) (pin config : Nat),
      s.pinConfig pin = PIN_MODE_IGNORE →
      setPinMode cb s pin config = (s, [])) ∧
    (∀ (cb : Callbacks) (s : FirmataState) (pin config : Nat),
      s.pinConfig pin ≠ PIN_MODE_IGNORE →
      setPinMode cb s pin config =
        ({ s with
            pinState := Function.update s.pinState pin 0,
            pinConfig := Function.update s.pinConfig pin config },
         if cb.pinMode then [Ev.pinModeCb pin config] else [])) ∧
    (∀ (cb : Callbacks) (s : FirmataState) (pin : Nat) (ops : List (Nat × Nat)),
      s.pinConfig pin = PIN_MODE_IGNORE →
      (applyPinOps cb s ops).pinConfig pin = PIN_MODE_IGNORE) ∧
    (∀ (maxData : Nat) (cb : Callbacks) (s : FirmataState) (pin : Nat)
      (bytes : List Nat),
      s.pinConfig pin = PIN_MODE_IGNORE →
      (runParse maxData cb s bytes).1.pinConfig pin = PIN_MODE_IGNORE) := by
  refine ⟨?_, ?_, ?_, ?_⟩
  · intro cb s pin config h
    simp [setPinMode, h]
  · intro cb s pin config h
    simp [setPinMode, h]
  · intro cb s pin ops h
    exact applyPinOps_preserves_ignore cb ops s pin h
  · intro maxData cb s pin bytes h
    exact runParse_preserves_ignore maxData cb bytes s pin h

/-- Witness for claim C7: pin 2 of the example state is IGNORE, so
setPinMode is a no-op, stays IGNORE across a sequence of setPinMode requests
and across a parsed SetPinMode message, while pin 4 (not IGNORE) is set
normally with the callback fired. -/
theorem c7_ignore_pin_write_once_witness :
    ignoreExampleState.pinConfig 2 = PIN_MODE_IGNORE ∧
    setPinMode allCb ignoreExampleState 2 3 = (ignoreExampleState, []) ∧
    (initState MAX_DATA_BYTES).pinConfig 4 ≠ PIN_MODE_IGNORE ∧
    setPinMode allCb (initState MAX_DATA_BYTES) 4 3 =
      ({ initState MAX_DATA_BYTES with
          pinState := Function.update (initState MAX_DATA_BYTES).pinState 4 0,
          pinConfig :=
            Function.update (initState MAX_DATA_BYTES).pinConfig 4 3 },
       [Ev.pinModeCb 4 3]) ∧
    (applyPinOps allCb ignoreExampleState [(2, 1), (2, 0)]).pinConfig 2 =
      PIN_MODE_IGNORE ∧
    (runParse MAX_DATA_BYTES allCb ignoreExampleState
      [0xF4, 2, 1]).1.pinConfig 2 = PIN_MODE_IGNORE :=
  ⟨by decide,
   c7_ignore_pin_write_once.1 allCb ignoreExampleState 2 3 (by decide),
   by decide,
   c7_ignore_pin_write_once.2.1 allCb (initState MAX_DATA_BYTES) 4 3
     (by decide),
   c7_ignore_pin_write_once.2.2.1 allCb ignoreExampleState 2 [(2, 1), (2, 0)]
     (by decide),
   c7_ignore_pin_write_once.2.2.2 MAX_DATA_BYTES allCb ignoreExampleState 2
     [0xF4, 2, 1] (by decide)⟩

/-! ## Claim C10 helper lemmas -/

/-- The in-place string decode loop never changes the buffer length. -/
theorem stringLoop_length : ∀ (n i j : Nat) (buf : List Nat),
    (stringLoop n i j buf).length = buf.length := by
  intro n
  induction n with
  | zero => intro i j buf; rfl
  | succ n ih =>
    intro i j buf
    simp only [stringLoop]
    rw [ih]
    simp

/-- processSysexMessage leaves waitForData unchanged. -/
theorem processSysex_wfd (cb : Callbacks) (s : FirmataState) :
    (processSysexMessage cb s).1.waitForData = s.waitForData := by
  unfold processSysexMessage
  dsimp only
  split_ifs <;> rfl

/-- processSysexMessage leaves sysexBytesRead unchanged. -/
theorem processSysex_sbr (cb : Callbacks) (s : FirmataState) :
    (processSysexMessage cb s).1.sysexBytesRead = s.sysexBytesRead := by
  unfold processSysexMessage
  dsimp only
  split_ifs <;> rfl

/-- processSysexMessage preserves the buffer length. -/
theorem processSysex_len (cb : Callbacks) (s : FirmataState) :
    (processSysexMessage cb s).1.storedInputData.length =
      s.storedInputData.length := by
  unfold processSysexMessage
  dsimp only
  split_ifs <;> simp [stringLoop_length]

/-- setPinMode leaves waitForData unchanged. -/
theorem setPinMode_wfd (cb : Callbacks) (s : FirmataState) (p m : Nat) :
    (setPinMode cb s p m).1.waitForData = s.waitForData := by
  unfold setPinMode
  split_ifs <;> rfl

/-- setPinMode leaves sysexBytesRead unchanged. -/
theorem setPinMode_sbr (cb : Callbacks) (s : FirmataState) (p m : Nat) :
    (setPinMode cb s p m).1.sysexBytesRead = s.sysexBytesRead := by
  unfold setPinMode
  split_ifs <;> rfl

/-- setPinMode leaves the input buffer unchanged. -/
theorem setPinMode_buf (cb : Callbacks) (s : FirmataState) (p m : Nat) :
    (setPinMode cb s p m).1.storedInputData = s.storedInputData := by
  unfold setPinMode
  split_ifs <;> rfl

/-- executeMulti preserves the parse invariant. -/
theorem executeMulti_inv (maxData : Nat) (cb : Callbacks) (s1 : FirmataState)
    (h5 : 5 ≤ maxData) (hinv : parseInv maxData s1) :
    parseInv maxData (executeMulti cb s1).1 := by
  obtain ⟨hs, hw, hl⟩ := hinv
  unfold executeMulti
  dsimp only
  split_ifs <;>
    refine ⟨?_, ?_, ?_⟩ <;>
    simp [processSysex_wfd, processSysex_sbr, processSysex_len,
      setPinMode_wfd, setPinMode_sbr, setPinMode_buf, hl] <;>
    omega

/-- commandSwitch preserves the parse invariant. -/
theorem commandSwitch_inv (maxData : Nat) (cb : Callbacks) (command : Nat)
    (s0 : FirmataState) (h5 : 5 ≤ maxData) (hinv : parseInv maxData s0) :
    parseInv maxData (commandSwitch maxData cb command s0).1 := by
  obtain ⟨hs, hw, hl⟩ := hinv
  unfold commandSwitch systemReset
  split_ifs <;> refine ⟨?_, ?_, ?_⟩ <;> (try simp) <;> omega

/-! ## Claim C10 -/

/-- Claim C10: every dynamic buffer index used by parse stays in bounds —
the freshly constructed engine satisfies the invariant that sysexBytesRead is
below MAX_DATA_BYTES and waitForData is at most 2, parse preserves this
invariant from any state satisfying it, and under the invariant the sysex
store index (sysexBytesRead) and the fixed-length store index
(waitForData − 1) are both below MAX_DATA_BYTES, so no parse step ever
indexes storedInputData at or beyond the buffer size. -/
theorem c10_buffer_safety :
    (∀ maxData : Nat, 0 < maxData → parseInv maxData (initState maxData)) ∧
    (∀ (maxData : Nat) (cb : Callbacks) (s : FirmataState) (b : Nat),
      5 ≤ maxData → parseInv maxData s →
      parseInv maxData (parse maxData cb s b).1 ∧
      (s.parsingSysex = true → s.sysexBytesRead < maxData) ∧
      (0 < s.waitForData → s.waitForData - 1 < maxData)) := by
  constructor
  · intro maxData h
    exact ⟨h, by simp [initState], by simp [initState]⟩
  · intro maxData cb s b h5 hinv
    obtain ⟨hs, hw, hl⟩ := hinv
    refine ⟨?_, fun _ => hs, fun _ => by omega⟩
    unfold parse
    by_cases hR : b = SYSTEM_RESET
    · rw [if_pos hR]
      refine ⟨?_, ?_, ?_⟩ <;> simp [systemReset] <;> omega
    · rw [if_neg hR]
      by_cases hS : s.parsingSysex = true
      · rw [if_pos hS]
        by_cases hE : b = END_SYSEX
        · rw [if_pos hE]
          exact ⟨by rw [processSysex_sbr]; exact hs,
            by rw [processSysex_wfd]; exact hw,
            by rw [processSysex_len]; simpa using hl⟩
        · rw [if_neg hE]
          dsimp only
          split_ifs with hFull
          · refine ⟨?_, ?_, ?_⟩ <;> dsimp only
            · omega
            · omega
            · simpa using hl
          · refine ⟨?_, ?_, ?_⟩ <;> dsimp only
            · omega
            · omega
            · simpa using hl
      · rw [if_neg hS]
        by_cases hW : 0 < s.waitForData ∧ b < 128
        · rw [if_pos hW]
          dsimp only
          split_ifs
          · exact executeMulti_inv maxData cb _ h5
              ⟨hs, by dsimp only; omega, by simpa using hl⟩
          · exact ⟨hs, by dsimp only; omega, by simpa using hl⟩
        · rw [if_neg hW]
          by_cases hF : b < 0xF0
          · rw [if_pos hF]
            exact commandSwitch_inv maxData cb _ _ h5 ⟨hs, hw, hl⟩
          · rw [if_neg hF]
            exact commandSwitch_inv maxData cb _ _ h5 ⟨hs, hw, hl⟩

/-- Witness for claim C10: the invariant holds after construction and is
preserved by a concrete parse step (the START_SYSEX byte) on the fresh
engine. -/
theorem c10_buffer_safety_witness :
    (0 < MAX_DATA_BYTES ∧ parseInv MAX_DATA_BYTES (initState MAX_DATA_BYTES)) ∧
    (5 ≤ MAX_DATA_BYTES ∧
      (parseInv MAX_DATA_BYTES
        (parse MAX_DATA_BYTES allCb (initState MAX_DATA_BYTES) 0xF0).1 ∧
      ((initState MAX_DATA_BYTES).parsingSysex = true →
        (initState MAX_DATA_BYTES).sysexBytesRead < MAX_DATA_BYTES) ∧
      (0 < (initState MAX_DATA_BYTES).waitForData →
        (initState MAX_DATA_BYTES).waitForData - 1 < MAX_DATA_BYTES))) :=
  ⟨⟨by decide, c10_buffer_safety.1 MAX_DATA_BYTES (by decide)⟩,
   ⟨by decide, c10_buffer_safety.2 MAX_DATA_BYTES allCb
     (initState MAX_DATA_BYTES) 0xF0 (by decide)
     ⟨by decide, by decide, by decide⟩⟩⟩

/-! ## Claim C1 helper lemmas -/

/-- runParse splits over list append, concatenating the events. -/
theorem runParse_append (maxData : Nat) (cb : Callbacks) :
    ∀ (xs ys : List Nat) (s : FirmataState),
    runParse maxData cb s (xs ++ ys) =
      ((runParse maxData cb (runParse maxData cb s xs).1 ys).1,
       (runParse maxData cb s xs).2 ++
         (runParse maxData cb (runParse maxData cb s xs).1 ys).2) := by
  intro xs
  induction xs with
  | nil =>
    intro ys s
    simp [runParse]
  | cons x xs ih =>
    intro ys s
    simp [runParse, ih]

/-- One parse step in the sysex-collecting state on a plain data byte that
does not fill the buffer: the byte is stored at sysexBytesRead. -/
theorem parse_sysex_store (maxData : Nat) (cb : Callbacks) (s : FirmataState)
    (b : Nat) (hp : s.parsingSysex = true) (hb : b < 128)
    (hne : s.sysexBytesRead + 1 ≠ maxData) :
    parse maxData cb s b =
      ({ s with
          storedInputData := s.storedInputData.set s.sysexBytesRead b,
          sysexBytesRead := s.sysexBytesRead + 1 }, []) := by
  unfold parse
  rw [if_neg (show ¬b = SYSTEM_RESET by simp only [SYSTEM_RESET]; omega),
    if_pos hp, if_neg (show ¬b = END_SYSEX by simp only [END_SYSEX]; omega)]
  dsimp only
  rw [if_neg hne]

/-- One parse step in the sysex-collecting state on the data byte that fills
the buffer: the diagnostic is emitted and the message discarded. -/
theorem parse_sysex_overflow (maxData : Nat) (cb : Callbacks)
    (s : FirmataState) (b : Nat) (hp : s.parsingSysex = true) (hb : b < 128)
    (heq : s.sysexBytesRead + 1 = maxData) :
    parse maxData cb s b =
      ({ s with
          storedInputData := s.storedInputData.set s.sysexBytesRead b,
          sysexBytesRead := 0,
          parsingSysex := false,
          waitForData := 0 },
       [Ev.diagString]) := by
  unfold parse
  rw [if_neg (show ¬b = SYSTEM_RESET by simp only [SYSTEM_RESET]; omega),
    if_pos hp, if_neg (show ¬b = END_SYSEX by simp only [END_SYSEX]; omega)]
  dsimp only
  rw [if_pos heq]

/-- One parse step in the sysex-collecting state on the end marker: the
collected payload is dispatched. -/
theorem parse_end_sysex (maxData : Nat) (cb : Callbacks) (s : FirmataState)
    (hp : s.parsingSysex = true) :
    parse maxData cb s END_SYSEX =
      processSysexMessage cb { s with parsingSysex := false } := by
  unfold parse
  rw [if_neg (show ¬END_SYSEX = SYSTEM_RESET by decide), if_pos hp,
    if_pos rfl]

/-- The end marker received while idle is an unrecognized command byte at or
above 0xF0: it is ignored entirely. -/
theorem parse_end_sysex_idle (maxData : Nat) (cb : Callbacks)
    (s : FirmataState) (hp : s.parsingSysex = false)
    (hw : s.waitForData = 0) :
    parse maxData cb s END_SYSEX = (s, []) := by
  simp [parse, commandSwitch, hp, hw, END_SYSEX, SYSTEM_RESET, START_SYSEX,
    ANALOG_MESSAGE, DIGITAL_MESSAGE, SET_PIN_MODE, SET_DIGITAL_PIN_VALUE,
    REPORT_ANALOG, REPORT_DIGITAL, REPORT_VERSION]

/-- The start marker received while idle puts the parser into the
sysex-collecting state with an empty buffer count. -/
theorem parse_start_sysex (maxData : Nat) (cb : Callbacks) (s : FirmataState)
    (hp : s.parsingSysex = false) (hw : s.waitForData = 0) :
    parse maxData cb s START_SYSEX =
      ({ s with parsingSysex := true, sysexBytesRead := 0 }, []) := by
  simp [parse, commandSwitch, hp, hw, END_SYSEX, SYSTEM_RESET, START_SYSEX,
    ANALOG_MESSAGE, DIGITAL_MESSAGE, SET_PIN_MODE, SET_DIGITAL_PIN_VALUE,
    REPORT_ANALOG, REPORT_DIGITAL, REPORT_VERSION]

/-- Dispatch of a completed sysex message whose sub-command is neither the
firmware report nor the string message: the generic sysex callback fires. -/
theorem processSysex_generic (cb : Callbacks) (s : FirmataState)
    (hcb : cb.sysex = true)
    (h1 : s.storedInputData.getD 0 0 ≠ REPORT_FIRMWARE)
    (h2 : s.storedInputData.getD 0 0 ≠ STRING_DATA) :
    processSysexMessage cb s =
      (s, [Ev.sysex (s.storedInputData.getD 0 0) (s.sysexBytesRead - 1)
            ((s.storedInputData.drop 1).take (s.sysexBytesRead - 1))]) := by
  unfold processSysexMessage
  dsimp only
  rw [if_neg h1, if_neg h2, if_pos hcb]

/-- Setting an index below the take boundary then taking one element more
appends the new element. -/
theorem set_take_succ (buf : List Nat) (k d : Nat) (h : k < buf.length) :
    (buf.set k d).take (k + 1) = buf.take k ++ [d] := by
  rw [List.set_eq_take_cons_drop d h, List.take_append_eq_append_take]
  have hlt : (buf.take k).length = k := List.length_take_of_le (by omega)
  rw [hlt]
  simp

/-- writeSeq writes the byte run as a contiguous segment of the buffer. -/
theorem writeSeq_eq : ∀ (ds : List Nat) (buf : List Nat) (k : Nat),
    k + ds.length ≤ buf.length →
    writeSeq buf k ds = buf.take k ++ ds ++ buf.drop (k + ds.length) := by
  intro ds
  induction ds with
  | nil =>
    intro buf k h
    simp [writeSeq]
  | cons d ds ih =>
    intro buf k h
    simp only [List.length_cons] at h
    have hk : k < buf.length := by omega
    show writeSeq (buf.set k d) (k + 1) ds = _
    rw [ih (buf.set k d) (k + 1) (by simp; omega)]
    rw [set_take_succ buf k d hk]
    rw [List.drop_set]
    rw [if_pos (by omega)]
    have harith : k + 1 + ds.length = k + (ds.length + 1) := by omega
    rw [harith]
    simp

/-- Feeding a run of plain data bytes in the sysex-collecting state, staying
strictly below the buffer capacity, stores them contiguously with no events. -/
theorem feedSysex (maxData : Nat) (cb : Callbacks) :
    ∀ (ds : List Nat) (s : FirmataState),
    s.parsingSysex = true → (∀ x ∈ ds, x < 128) →
    s.sysexBytesRead + ds.length < maxData →
    runParse maxData cb s ds =
      ({ s with
          storedInputData := writeSeq s.storedInputData s.sysexBytesRead ds,
          sysexBytesRead := s.sysexBytesRead + ds.length }, []) := by
  intro ds
  induction ds with
  | nil =>
    intro s hp _ _
    simp [runParse, writeSeq]
  | cons d ds ih =>
    intro s hp hall hlen
    have hd : d < 128 := hall d (by simp)
    simp only [List.length_cons] at hlen
    simp only [runParse]
    rw [parse_sysex_store maxData cb s d hp hd (by omega)]
    dsimp only
    rw [ih
      { s with
          storedInputData := s.storedInputData.set s.sysexBytesRead d,
          sysexBytesRead := s.sysexBytesRead + 1 }
      hp (fun x hx => hall x (List.mem_cons_of_mem d hx))
      (by first | (dsimp only; omega) | omega)]
    dsimp only
    rw [show s.sysexBytesRead + 1 + ds.length =
      s.sysexBytesRead + (ds.length + 1) from by omega]
    rfl

/-! ## Claim C1 -/

/-- Claim C1 counterexample: the claim states that a sysex payload of exactly
MAX_DATA_BYTES data bytes followed by the end marker completes normally and is
dispatched, with the overflow path triggered only at capacity + 1.  In fact
the overflow check fires as soon as sysexBytesRead reaches MAX_DATA_BYTES:
feeding START_SYSEX, 64 data bytes and END_SYSEX emits the diagnostic and
dispatches nothing. -/
theorem c1_capacity_counterexample :
    (runParse MAX_DATA_BYTES allCb (initState MAX_DATA_BYTES)
      (START_SYSEX :: (List.replicate 64 1 ++ [END_SYSEX]))).2 =
      [Ev.diagString] ∧
    isParsingMessage (runParse MAX_DATA_BYTES allCb (initState MAX_DATA_BYTES)
      (START_SYSEX :: (List.replicate 64 1 ++ [END_SYSEX]))).1 = false := by
  decide

/-- Claim C1 (amended): a sysex message whose payload is at most
MAX_DATA_BYTES − 1 stored bytes followed by the end marker completes normally
and is dispatched; a payload of MAX_DATA_BYTES bytes — and only then, at the
very byte that fills the buffer — triggers the overflow path, which emits the
diagnostic string message, discards the in-flight message, and leaves the
parser in the Idle state.  Stated here at the boundary: a payload of exactly
MAX_DATA_BYTES − 1 generic data bytes dispatches to the sysex callback, and a
payload of exactly MAX_DATA_BYTES bytes is discarded with the diagnostic. -/
theorem c1_sysex_capacity_boundary (maxData : Nat) (cb : Callbacks)
    (ds : List Nat) (hmd : 2 ≤ maxData) (hcb : cb.sysex = true)
    (hall : ∀ x ∈ ds, x < 128)
    (hnf : ds.headD 0 ≠ REPORT_FIRMWARE) (hns : ds.headD 0 ≠ STRING_DATA) :
    (ds.length = maxData - 1 →
      (runParse maxData cb (initState maxData)
        (START_SYSEX :: (ds ++ [END_SYSEX]))).2 =
        [Ev.sysex (ds.headD 0) (maxData - 2) ds.tail] ∧
      isParsingMessage (runParse maxData cb (initState maxData)
        (START_SYSEX :: (ds ++ [END_SYSEX]))).1 = false) ∧
    (ds.length = maxData →
      (runParse maxData cb (initState maxData)
        (START_SYSEX :: (ds ++ [END_SYSEX]))).2 = [Ev.diagString] ∧
      isParsingMessage (runParse maxData cb (initState maxData)
        (START_SYSEX :: (ds ++ [END_SYSEX]))).1 = false) := by
  constructor
  · intro hlen1
    obtain ⟨d, t, rfl⟩ : ∃ d t, ds = d :: t := by
      cases ds with
      | nil =>
        exfalso
        simp at hlen1
        omega
      | cons d t => exact ⟨d, t, rfl⟩
    have ht : t.length = maxData - 2 := by
      simp only [List.length_cons] at hlen1
      omega
    have hB : runParse maxData cb
        { initState maxData with parsingSysex := true, sysexBytesRead := 0 }
        (d :: t) =
        ({ initState maxData with
            parsingSysex := true,
            storedInputData := (d :: t) ++ [0],
            sysexBytesRead := maxData - 1 }, []) := by
      rw [feedSysex maxData cb (d :: t)
        { initState maxData with parsingSysex := true, sysexBytesRead := 0 }
        rfl hall (by dsimp only; omega)]
      dsimp only [initState]
      rw [writeSeq_eq (d :: t) (List.replicate maxData 0) 0
        (by simp; omega)]
      simp [hlen1, show maxData - (maxData - 1) = 1 from by omega]
    have hD : processSysexMessage cb
        { initState maxData with
            parsingSysex := false,
            storedInputData := (d :: t) ++ [0],
            sysexBytesRead := maxData - 1 } =
        ({ initState maxData with
            parsingSysex := false,
            storedInputData := (d :: t) ++ [0],
            sysexBytesRead := maxData - 1 },
         [Ev.sysex d (maxData - 2) t]) := by
      rw [processSysex_generic cb _ hcb (by simpa using hnf) (by simpa using hns)]
      dsimp only
      rw [show maxData - 1 - 1 = maxData - 2 from by omega]
      rw [show ((d :: t) ++ [0] : List Nat).drop 1 = t ++ [0] from rfl]
      rw [List.take_left' ht]
      rfl
    have hstart : runParse maxData cb (initState maxData) [START_SYSEX] =
        ({ initState maxData with parsingSysex := true, sysexBytesRead := 0 },
         []) := by
      simp only [runParse]
      rw [parse_start_sysex maxData cb (initState maxData) rfl rfl]
      rfl
    dsimp only at hstart hB hD
    rw [show START_SYSEX :: ((d :: t) ++ [END_SYSEX]) =
      [START_SYSEX] ++ ((d :: t) ++ [END_SYSEX]) from rfl]
    rw [runParse_append maxData cb [START_SYSEX] ((d :: t) ++ [END_SYSEX])]
    rw [hstart]
    dsimp only
    rw [runParse_append maxData cb (d :: t) [END_SYSEX]]
    rw [hB]
    dsimp only
    simp only [runParse]
    rw [parse_end_sysex maxData cb _ rfl]
    dsimp only
    rw [hD]
    constructor
    · simp
    · rfl
  · intro hlen2
    have hsplit : ds.take (maxData - 1) ++ ds.drop (maxData - 1) = ds :=
      List.take_append_drop _ _
    have hlenA : (ds.take (maxData - 1)).length = maxData - 1 := by
      simp [hlen2]
    have hlenB : (ds.drop (maxData - 1)).length = 1 := by
      simp [hlen2]
      omega
    obtain ⟨dl, hdl⟩ : ∃ dl, ds.drop (maxData - 1) = [dl] := by
      rcases hB2 : ds.drop (maxData - 1) with _ | ⟨x, xs⟩
      · rw [hB2] at hlenB
        simp at hlenB
      · rcases xs with _ | ⟨y, ys⟩
        · exact ⟨x, rfl⟩
        · rw [hB2] at hlenB
          simp at hlenB
    have hdlm : dl ∈ ds := by
      have hsub : ds.drop (maxData - 1) ⊆ ds := List.drop_subset _ _
      apply hsub
      rw [hdl]
      simp
    have hdlt : dl < 128 := hall dl hdlm
    have hallA : ∀ x ∈ ds.take (maxData - 1), x < 128 := by
      intro x hx
      exact hall x (List.take_subset _ _ hx)
    rw [← hsplit, hdl]
    have hB : runParse maxData cb
        { initState maxData with parsingSysex := true, sysexBytesRead := 0 }
        (ds.take (maxData - 1)) =
        ({ initState maxData with
            parsingSysex := true,
            storedInputData :=
              writeSeq (List.replicate maxData 0) 0 (ds.take (maxData - 1)),
            sysexBytesRead := maxData - 1 }, []) := by
      rw [feedSysex maxData cb (ds.take (maxData - 1))
        { initState maxData with parsingSysex := true, sysexBytesRead := 0 }
        rfl hallA (by dsimp only; omega)]
      dsimp only [initState]
      simp [hlenA]
    have hOv : parse maxData cb
        { initState maxData with
            parsingSysex := true,
            storedInputData :=
              writeSeq (List.replicate maxData 0) 0 (ds.take (maxData - 1)),
            sysexBytesRead := maxData - 1 } dl =
        ({ initState maxData with
            parsingSysex := false,
            storedInputData :=
              (writeSeq (List.replicate maxData 0) 0
                (ds.take (maxData - 1))).set (maxData - 1) dl,
            sysexBytesRead := 0,
            waitForData := 0 },
         [Ev.diagString]) := by
      rw [parse_sysex_overflow maxData cb _ dl rfl hdlt
        (by dsimp only; omega)]
    have hstart : runParse maxData cb (initState maxData) [START_SYSEX] =
        ({ initState maxData with parsingSysex := true, sysexBytesRead := 0 },
         []) := by
      simp only [runParse]
      rw [parse_start_sysex maxData cb (initState maxData) rfl rfl]
      rfl
    dsimp only at hstart hB hOv
    rw [show START_SYSEX :: ((ds.take (maxData - 1) ++ [dl]) ++ [END_SYSEX]) =
      [START_SYSEX] ++ (ds.take (maxData - 1) ++ [dl, END_SYSEX]) from by simp]
    rw [runParse_append maxData cb [START_SYSEX]
      (ds.take (maxData - 1) ++ [dl, END_SYSEX])]
    rw [hstart]
    dsimp only
    rw [runParse_append maxData cb (ds.take (maxData - 1)) [dl, END_SYSEX]]
    rw [hB]
    dsimp only
    simp only [runParse]
    rw [hOv]
    dsimp only
    rw [parse_end_sysex_idle maxData cb _ rfl rfl]
    constructor
    · simp
    · rfl

/-- Witness for claim C1: the boundary instantiated at MAX_DATA_BYTES = 64
with 63 data bytes of value 1: the message is dispatched to the sysex
callback with sub-command 1 and a 62-byte payload, and the parser ends idle. -/
theorem c1_sysex_capacity_boundary_witness :
    (2 ≤ MAX_DATA_BYTES ∧ allCb.sysex = true ∧
      (∀ x ∈ List.replicate 63 1, x < 128) ∧
      (List.replicate 63 1).headD 0 ≠ REPORT_FIRMWARE ∧
      (List.replicate 63 1).headD 0 ≠ STRING_DATA) ∧
    ((List.replicate 63 1).length = MAX_DATA_BYTES - 1 →
      (runParse MAX_DATA_BYTES allCb (initState MAX_DATA_BYTES)
        (START_SYSEX :: (List.replicate 63 1 ++ [END_SYSEX]))).2 =
        [Ev.sysex ((List.replicate 63 1).headD 0) (MAX_DATA_BYTES - 2)
          (List.replicate 63 1).tail] ∧
      isParsingMessage (runParse MAX_DATA_BYTES allCb (initState MAX_DATA_BYTES)
        (START_SYSEX :: (List.replicate 63 1 ++ [END_SYSEX]))).1 = false) :=
  ⟨⟨by decide, by decide, by decide, by decide, by decide⟩,
   (c1_sysex_capacity_boundary MAX_DATA_BYTES allCb (List.replicate 63 1)
     (by decide) (by decide) (by decide) (by decide) (by decide)).1⟩

/-! ## Claim C6 -/

/-- Extracting the command and channel nibbles of an analog-write command
byte. -/
theorem analog_nibble (c : Nat) (h : c < 16) :
    (ANALOG_MESSAGE + c) &&& 0xF0 = ANALOG_MESSAGE ∧
    (ANALOG_MESSAGE + c) &&& 0x0F = c := by
  interval_cases c <;> exact ⟨by decide, by decide⟩

/-- Claim C6 counterexample: the claim states the repacked synthetic sysex
payload is laid out [EXTENDED_ANALOG, channel, valueHighByte, valueLowByte].
For input [0xE0, 0x7F, 0x01] the 14-bit value is 0x7F | (0x01 << 7) = 255,
so the high byte is 0x01 and the low byte 0x7F — yet the buffer holds the
LOW byte at index 2 and the HIGH byte at index 3: the actual layout is
[EXTENDED_ANALOG, channel, valueLowByte, valueHighByte]. -/
theorem c6_layout_counterexample :
    (runParse MAX_DATA_BYTES allCb (initState MAX_DATA_BYTES)
      [0xE0, 0x7F, 0x01]).1.storedInputData.take 5 =
      [EXTENDED_ANALOG, 0, 0x7F, 0x01, END_SYSEX] ∧
    (runParse MAX_DATA_BYTES allCb (initState MAX_DATA_BYTES)
      [0xE0, 0x7F, 0x01]).1.storedInputData.take 5 ≠
      [EXTENDED_ANALOG, 0, 0x01, 0x7F, END_SYSEX] ∧
    (runParse MAX_DATA_BYTES allCb (initState MAX_DATA_BYTES)
      [0xE0, 0x7F, 0x01]).2 =
      [Ev.sysex EXTENDED_ANALOG 3 [0, 0x7F, 0x01]] ∧
    decodePackedUInt14 [0x7F, 0x01] = 255 := by
  decide

/-- Claim C6 (amended): when a 2-byte fixed-form analog-write message
completes, the parser repacks it as a synthetic extended-analog sysex payload
laid out as [EXTENDED_ANALOG, channel, valueLowByte, valueHighByte] (low 7
bits first, matching the extended-analog wire order) followed by END_SYSEX,
and funnels it through the sysex dispatch path; the dispatched payload
carries the 14-bit value low | (high << 7) — in particular input
[0xE0, 0x7F, 0x01] yields value 0x7F | (0x01 << 7) = 255. -/
theorem c6_analog_repack (cb : Callbacks) (c lo hi : Nat) (hc : c < 16)
    (hlo : lo < 128) (hhi : hi < 128) (hcb : cb.sysex = true) :
    (runParse MAX_DATA_BYTES cb (initState MAX_DATA_BYTES)
      [ANALOG_MESSAGE + c, lo, hi]).2 =
      [Ev.sysex EXTENDED_ANALOG 3 [c, lo, hi]] ∧
    (runParse MAX_DATA_BYTES cb (initState MAX_DATA_BYTES)
      [ANALOG_MESSAGE + c, lo, hi]).1.storedInputData.take 5 =
      [EXTENDED_ANALOG, c, lo, hi, END_SYSEX] ∧
    decodePackedUInt14 [lo, hi] = lo + 128 * hi := by
  have hnib := analog_nibble c hc
  have h1 : parse MAX_DATA_BYTES cb (initState MAX_DATA_BYTES)
      (ANALOG_MESSAGE + c) =
      ({ initState MAX_DATA_BYTES with
          multiByteChannel := c,
          waitForData := 2,
          executeMultiByteCommand := ANALOG_MESSAGE }, []) := by
    unfold parse
    rw [if_neg (show ¬(ANALOG_MESSAGE + c = SYSTEM_RESET) from by
      simp only [ANALOG_MESSAGE, SYSTEM_RESET]; omega)]
    rw [if_neg (show ¬((initState MAX_DATA_BYTES).parsingSysex = true) from
      by decide)]
    rw [if_neg (show ¬(0 < (initState MAX_DATA_BYTES).waitForData ∧
        ANALOG_MESSAGE + c < 128) from by
      rintro ⟨h0, -⟩
      exact absurd h0 (by decide))]
    rw [if_pos (show ANALOG_MESSAGE + c < 0xF0 from by
      simp only [ANALOG_MESSAGE]; omega)]
    rw [hnib.2]
    rw [hnib.1]
    unfold commandSwitch
    rw [if_pos (Or.inl rfl)]
  have h2 : parse MAX_DATA_BYTES cb
      ({ initState MAX_DATA_BYTES with
          multiByteChannel := c,
          waitForData := 2,
          executeMultiByteCommand := ANALOG_MESSAGE }) lo =
      ({ initState MAX_DATA_BYTES with
          multiByteChannel := c,
          waitForData := 1,
          executeMultiByteCommand := ANALOG_MESSAGE,
          storedInputData := (List.replicate MAX_DATA_BYTES 0).set 1 lo },
       []) := by
    unfold parse
    rw [if_neg (show ¬(lo = SYSTEM_RESET) from by
      simp only [SYSTEM_RESET]; omega)]
    rw [if_neg (by first | decide | (dsimp only; decide))]
    rw [if_pos ⟨by first | decide | (dsimp only; decide), hlo⟩]
    dsimp only
    rw [if_neg (by first | decide | (dsimp only; decide))]
    rfl
  have h3 : parse MAX_DATA_BYTES cb
      ({ initState MAX_DATA_BYTES with
          multiByteChannel := c,
          waitForData := 1,
          executeMultiByteCommand := ANALOG_MESSAGE,
          storedInputData := (List.replicate MAX_DATA_BYTES 0).set 1 lo }) hi =
      ({ initState MAX_DATA_BYTES with
          multiByteChannel := c,
          waitForData := 0,
          executeMultiByteCommand := 0,
          storedInputData :=
            EXTENDED_ANALOG :: c :: lo :: hi :: END_SYSEX ::
              List.replicate 59 0,
          sysexBytesRead := 4 },
       [Ev.sysex EXTENDED_ANALOG 3 [c, lo, hi]]) := by
    unfold parse
    rw [if_neg (show ¬(hi = SYSTEM_RESET) from by
      simp only [SYSTEM_RESET]; omega)]
    rw [if_neg (by first | decide | (dsimp only; decide))]
    rw [if_pos ⟨by first | decide | (dsimp only; decide), hhi⟩]
    dsimp only
    rw [if_pos ⟨by first | decide | (dsimp only; decide), by first | decide | (dsimp only; decide)⟩]
    unfold executeMulti
    dsimp only
    rw [if_pos rfl]
    show ({ (processSysexMessage cb
        { initState MAX_DATA_BYTES with
            multiByteChannel := c,
            waitForData := 0,
            executeMultiByteCommand := ANALOG_MESSAGE,
            storedInputData :=
              EXTENDED_ANALOG :: c :: lo :: hi :: END_SYSEX ::
                List.replicate 59 0,
            sysexBytesRead := 4 }).1 with executeMultiByteCommand := 0 },
      (processSysexMessage cb
        { initState MAX_DATA_BYTES with
            multiByteChannel := c,
            waitForData := 0,
            executeMultiByteCommand := ANALOG_MESSAGE,
            storedInputData :=
              EXTENDED_ANALOG :: c :: lo :: hi :: END_SYSEX ::
                List.replicate 59 0,
            sysexBytesRead := 4 }).2) = _
    rw [processSysex_generic cb
      { initState MAX_DATA_BYTES with
          multiByteChannel := c,
          waitForData := 0,
          executeMultiByteCommand := ANALOG_MESSAGE,
          storedInputData :=
            EXTENDED_ANALOG :: c :: lo :: hi :: END_SYSEX ::
              List.replicate 59 0,
          sysexBytesRead := 4 }
      hcb
      (by rw [show (EXTENDED_ANALOG :: c :: lo :: hi :: END_SYSEX ::
          List.replicate 59 0 : List Nat).getD 0 0 = EXTENDED_ANALOG from rfl]
          decide)
      (by rw [show (EXTENDED_ANALOG :: c :: lo :: hi :: END_SYSEX ::
          List.replicate 59 0 : List Nat).getD 0 0 = EXTENDED_ANALOG from rfl]
          decide)]
    rfl
  dsimp only at h1 h2 h3
  refine ⟨?_, ?_, ?_⟩
  · simp only [runParse]
    rw [h1]
    dsimp only
    rw [h2]
    dsimp only
    rw [h3]
    simp
  · simp only [runParse]
    rw [h1]
    dsimp only
    rw [h2]
    dsimp only
    rw [h3]
    rfl
  · have e : decodePackedUInt14 [lo, hi] = (lo ||| hi <<< 7) % 65536 := rfl
    rw [e, or_shift_chunk lo hi 7 128 (by norm_num) hlo]
    omega

/-- Witness for claim C6: the repack applied to channel 0 with the data
bytes 0x7F and 0x01 — the payload is [0, 0x7F, 0x01] and carries the value
0x7F + 128 * 0x01 = 255. -/
theorem c6_analog_repack_witness :
    ((0 : Nat) < 16 ∧ (0x7F : Nat) < 128 ∧ (0x01 : Nat) < 128 ∧
      allCb.sysex = true) ∧
    ((runParse MAX_DATA_BYTES allCb (initState MAX_DATA_BYTES)
      [ANALOG_MESSAGE + 0, 0x7F, 0x01]).2 =
      [Ev.sysex EXTENDED_ANALOG 3 [0, 0x7F, 0x01]] ∧
    (runParse MAX_DATA_BYTES allCb (initState MAX_DATA_BYTES)
      [ANALOG_MESSAGE + 0, 0x7F, 0x01]).1.storedInputData.take 5 =
      [EXTENDED_ANALOG, 0, 0x7F, 0x01, END_SYSEX] ∧
    decodePackedUInt14 [0x7F, 0x01] = 0x7F + 128 * 0x01) :=
  ⟨⟨by decide, by decide, by decide, by decide⟩,
   c6_analog_repack allCb 0 0x7F 0x01 (by decide) (by decide) (by decide)
     (by decide)⟩

/-! ## Claim C4 -/

set_option maxRecDepth 100000 in
/-- Claim C4: the claim states that feeding bytes one at a time through parse
and feeding them as one block through the LARGE_MEM block-read path of
processInput produce identical dispatched messages and identical behaviour,
including the buffer-overflow discard.  This is refuted on the LARGE_MEM
build (MAX_DATA_BYTES = 252): with the parser mid-sysex, a block of 256
plain data bytes fed one byte at a time triggers the overflow diagnostic at
the 252nd byte and leaves the parser idle, whereas the bulk fast-scan copies
4 bytes at a time with no capacity check, so sysexBytesRead jumps past 252
up to 256 (the copies at indices 252 to 255 overrun the 252-byte array), no
diagnostic is ever emitted, and the parser is left still collecting. -/
theorem c4_block_path_divergence :
    (runParse MAX_DATA_BYTES_LARGE allCb largeMemSysexState largeMemBlock).2 =
      [Ev.diagString] ∧
    isParsingMessage
      (runParse MAX_DATA_BYTES_LARGE allCb largeMemSysexState
        largeMemBlock).1 = false ∧
    (processInputBlock allCb largeMemSysexState largeMemBlock).2 = [] ∧
    (processInputBlock allCb largeMemSysexState
      largeMemBlock).1.sysexBytesRead = 256 ∧
    (processInputBlock allCb largeMemSysexState
      largeMemBlock).1.parsingSysex = true ∧
    MAX_DATA_BYTES_LARGE < 256 ∧
    (runParse MAX_DATA_BYTES_LARGE allCb largeMemSysexState largeMemBlock).2 ≠
      (processInputBlock allCb largeMemSysexState largeMemBlock).2 := by
  decide

end Firmata
